import Mathlib

/-!
# Verification of the content-to-template matching engine

Shallow embedding of the matching core of the n8n Google Slides pipeline:

* `ContentMatcher` (canonical copy, `src/unnamed/part_001`):
  `analyzeContent`, `determineContentType`, `calculateLayoutScore`,
  `getCategoryScores`, `getLayoutCategory`, `findBestLayout`,
  `generateReasoning`.
* `LayoutAnalyzer` (`src/core/layout-analyzer.js`): `extractLayouts`,
  `extractPlaceholders`, `determineLayoutCategory`.
* The divergent inline copy of the matcher embedded in the all-in-one n8n
  function (`src/n8n-functions/complete-workflow.js`):
  `analyzeContentWorkflow`, `determineContentTypeWorkflow`,
  `calculateLayoutScoreWorkflow`.

JavaScript strings are modelled as Lean `String`; `toUpperCase` /
`toLowerCase` are modelled with `Char.toUpper` / `Char.toLower` (the tokens
the code tests are all ASCII); `String.prototype.includes` is modelled as a
substring test on character lists.  Absent (`undefined`) fields are
modelled with `Option`, and JavaScript truthiness of strings and arrays is
made explicit.  JavaScript numbers are modelled as `Int` (the code only
ever adds and subtracts small integer constants).  The one `throw` in the
matcher and the `TypeError` raised by dereferencing a null presentation are
modelled with `Except`.
-/

/-- Does `needle` occur as a contiguous run somewhere in `hay`? -/
def containsSeq (needle : List Char) : List Char → Bool
  | [] => needle.isEmpty
  | c :: t => needle.isPrefixOf (c :: t) || containsSeq needle t

/-- JavaScript `String.prototype.includes`: `includes hay needle` tests
whether `needle` is a substring of `hay`. -/
def includes (hay needle : String) : Bool :=
  containsSeq needle.toList hay.toList

/-- JavaScript `toUpperCase` restricted to ASCII (all tokens the code
compares against are ASCII). -/
def jsToUpper (s : String) : String :=
  String.mk (s.data.map Char.toUpper)

/-- JavaScript `toLowerCase` restricted to ASCII. -/
def jsToLower (s : String) : String :=
  String.mk (s.data.map Char.toLower)

/-- Emptiness of a string, phrased structurally on its characters. -/
def strIsEmpty (s : String) : Bool :=
  s.data.isEmpty

/-- JavaScript `String.prototype.trim`. -/
def jsTrim (s : String) : String :=
  String.mk
    (((s.data.dropWhile Char.isWhitespace).reverse.dropWhile
        Char.isWhitespace).reverse)

/-- JavaScript truthiness of a string value: `undefined` and the empty
string are falsy. -/
def jsTruthyStr (s : Option String) : Bool :=
  match s with
  | none => false
  | some v => !strIsEmpty v

/-- Truthiness of a plain (non-optional) string. -/
def strTruthy (s : String) : Bool :=
  !strIsEmpty s

/-- JavaScript `x || y` on an optional number, as used in the score-matrix
lookup chain: `undefined` and `0` fall through to the fallback. -/
def jsNumOr (x : Option Nat) (fallback : Nat) : Nat :=
  match x with
  | some n => if n == 0 then fallback else n
  | none => fallback

/-- The regex test `body.match(/["'']/)` of `determineContentType`
(`src/unnamed/part_001` line 87): the character class consists of the
double quote (0x22) and the ASCII apostrophe (0x27, present twice in the
source bytes). -/
def hasQuoteChar (s : String) : Bool :=
  s.toList.any (fun c => c == Char.ofNat 34 || c == Char.ofNat 39)

/-- The length buckets assigned by `analyzeContent`. -/
inductive LengthBucket where
  | short
  | medium
  | long
deriving DecidableEq, Repr

/-- The classification tags returned by `determineContentType` (the
JavaScript strings `agenda`, `quote`, `section`, `image-focused`,
`list-heavy`, `comparison`, `closing`, `general`). -/
inductive ContentType where
  | agenda
  | quote
  | sectionTag
  | imageFocused
  | listHeavy
  | comparison
  | closing
  | general
deriving DecidableEq, Repr

/-- The template categories returned by the categorizers (the JavaScript
strings `titleOnly`, `titleAndBody`, `titleAndTwoColumns`, `sectionHeader`,
`blank`, `other`). -/
inductive Category where
  | titleOnly
  | titleAndBody
  | titleAndTwoColumns
  | sectionHeader
  | blank
  | other
deriving DecidableEq, Repr

/-- The geometry captured by `LayoutAnalyzer.extractPlaceholders` when both
size and transform are present. -/
structure Bounds where
  x : Int
  y : Int
  width : Int
  height : Int
deriving DecidableEq, Repr

/-- A placeholder record as produced by `LayoutAnalyzer.extractPlaceholders`.
`ptype` models the JavaScript `type` field (`element.shape.placeholder.type`,
which may be `undefined`). -/
structure Placeholder where
  objectId : Option String := none
  ptype : Option String := none
  index : Option Nat := none
  bounds : Option Bounds := none
  parentObjectId : Option String := none
deriving DecidableEq, Repr

/-- Display-name metadata of a raw layout (`layout.layoutProperties`). -/
structure LayoutProperties where
  displayName : Option String := none
deriving DecidableEq, Repr

/-- A Template record (`layoutInfo` in `LayoutAnalyzer.extractLayouts`):
`displayName` is always set by the extractor (default `Unnamed Layout`),
`score` is overwritten during a matching run. -/
structure Layout where
  objectId : Option String := none
  layoutProperties : Option LayoutProperties := none
  displayName : String := ""
  placeholders : List Placeholder := []
  score : Int := 0
deriving DecidableEq, Repr

/-- The external content object.  Every field is optional, mirroring the
loosely-shaped JavaScript input; `comparison` models the truthiness of the
explicit comparison flag. -/
structure Content where
  title : Option String := none
  body : Option String := none
  imageUrl : Option String := none
  images : Option (List String) := none
  bullets : Option (List String) := none
  bulletPoints : Option (List String) := none
  columns : Option (List String) := none
  comparison : Bool := false
deriving DecidableEq, Repr

/-- The ContentProfile produced by `ContentMatcher.analyzeContent`. -/
structure ContentAnalysis where
  hasTitle : Bool
  hasBody : Bool
  hasImage : Bool
  hasBullets : Bool
  hasMultipleColumns : Bool
  contentLength : LengthBucket
  contentType : ContentType
  imageCount : Nat
  bulletCount : Nat
deriving DecidableEq, Repr

/-- `ContentMatcher.determineContentType` (`src/unnamed/part_001` lines
81-95): first matching rule wins.  The quote rule tests the lowercased
body against the character class of `hasQuoteChar`. -/
def determineContentType (content : Content) (analysis : ContentAnalysis) :
    ContentType :=
  let title := jsToLower (content.title.getD "")
  let body := jsToLower (content.body.getD "")
  if includes title "agenda" || includes body "agenda" then .agenda
  else if includes title "quote" || hasQuoteChar body then .quote
  else if includes title "section" || includes title "chapter" then .sectionTag
  else if analysis.hasImage && !analysis.hasBody then .imageFocused
  else if analysis.hasBullets && analysis.bulletCount > 5 then .listHeavy
  else if content.comparison || includes title "vs" || includes title "versus" then
    .comparison
  else if includes title "thank" || includes title "conclusion" then .closing
  else .general

/-- `ContentMatcher.analyzeContent` (`src/unnamed/part_001` lines 40-73).
The record is first built with the default tag `general`, then the tag is
overwritten by `determineContentType`, mirroring the two-phase mutation in
the source. -/
def analyzeContent (content : Content) : ContentAnalysis :=
  let bodyText := content.body.getD ""
  let analysis : ContentAnalysis :=
    { hasTitle := strTruthy (jsTrim (content.title.getD ""))
      hasBody := strTruthy (jsTrim (content.body.getD ""))
      hasImage := jsTruthyStr content.imageUrl ||
        (match content.images with
         | some imgs => imgs.length != 0
         | none => false)
      hasBullets :=
        (match content.bullets with
         | some bs => bs.length != 0
         | none => false) ||
        (match content.bulletPoints with
         | some bs => bs.length != 0
         | none => false)
      hasMultipleColumns :=
        match content.columns with
        | some cols => decide (cols.length > 1)
        | none => false
      contentLength :=
        if bodyText.length > 500 then .long
        else if bodyText.length > 150 then .medium
        else .short
      contentType := .general
      imageCount :=
        match content.images with
        | some imgs => imgs.length
        | none => if jsTruthyStr content.imageUrl then 1 else 0
      bulletCount :=
        match content.bulletPoints with
        | some bs => bs.length
        | none =>
          match content.bullets with
          | some bs => bs.length
          | none => 0 }
  { analysis with contentType := determineContentType content analysis }

/-- The fixed (content-tag x category) base-score table of
`ContentMatcher.getCategoryScores` (`src/unnamed/part_001` lines 151-184).
A missing entry models a missing JavaScript object key. -/
def scoreMatrix (ct : ContentType) (cat : Category) : Option Nat :=
  match ct, cat with
  | .sectionTag, .sectionHeader => some 40
  | .sectionTag, .titleOnly => some 30
  | .sectionTag, .titleAndBody => some 20
  | .quote, .sectionHeader => some 35
  | .quote, .titleOnly => some 30
  | .quote, .titleAndBody => some 25
  | .imageFocused, .blank => some 40
  | .imageFocused, .titleOnly => some 35
  | .imageFocused, .titleAndBody => some 20
  | .comparison, .titleAndTwoColumns => some 40
  | .comparison, .titleAndBody => some 25
  | .comparison, .blank => some 20
  | .listHeavy, .titleAndBody => some 35
  | .listHeavy, .titleAndTwoColumns => some 30
  | .listHeavy, .blank => some 20
  | .general, .titleAndBody => some 35
  | .general, .titleOnly => some 25
  | .general, .sectionHeader => some 20
  | .general, .titleAndTwoColumns => some 15
  | .general, .blank => some 10
  | _, _ => none

/-- `ContentMatcher.getCategoryScores` (`src/unnamed/part_001` line 186):
`scoreMatrix[contentType]?.[category] || scoreMatrix["general"][category] || 0`.
Note that the `||` chain falls back to the general row whenever the looked
up entry is missing (or zero), regardless of whether the tag has a row. -/
def getCategoryScores (contentAnalysis : ContentAnalysis) (category : Category) :
    Nat :=
  jsNumOr (scoreMatrix contentAnalysis.contentType category)
    (jsNumOr (scoreMatrix .general category) 0)

/-- `ContentMatcher.getLayoutCategory` (`src/unnamed/part_001` lines
194-214). -/
def getLayoutCategory (layout : Layout) : Category :=
  let placeholderTypes := layout.placeholders.map (fun p => p.ptype)
  let displayName := jsToUpper layout.displayName
  if includes displayName "TITLE_ONLY" || includes displayName "TITLE ONLY" then
    .titleOnly
  else if includes displayName "SECTION_HEADER" then .sectionHeader
  else if includes displayName "TWO_COLUMNS" then .titleAndTwoColumns
  else if includes displayName "BLANK" then .blank
  else
    let hasTitle := placeholderTypes.contains (some "TITLE")
    let hasBody := placeholderTypes.contains (some "BODY")
    let bodyCount :=
      (placeholderTypes.filter
        (fun t => t == some "BODY" || t == some "CONTENT")).length
    if hasTitle && !hasBody then .titleOnly
    else if hasTitle && hasBody && bodyCount == 1 then .titleAndBody
    else if hasTitle && bodyCount >= 2 then .titleAndTwoColumns
    else if placeholderTypes.contains (some "SUBTITLE") then .sectionHeader
    else if placeholderTypes.length == 0 then .blank
    else .other

/-- The running total of `ContentMatcher.calculateLayoutScore`
(`src/unnamed/part_001` lines 103-138) before the final clamp: base score
plus alignment bonuses minus mismatch and length penalties. -/
def rawLayoutScore (contentAnalysis : ContentAnalysis) (layout : Layout) : Int :=
  let placeholderTypes := layout.placeholders.map (fun p => p.ptype)
  let category := getLayoutCategory layout
  (getCategoryScores contentAnalysis category : Int)
  + (if contentAnalysis.hasTitle && placeholderTypes.contains (some "TITLE")
     then 20 else 0)
  + (if contentAnalysis.hasBody && placeholderTypes.contains (some "BODY")
     then 15 else 0)
  + (if contentAnalysis.hasImage && placeholderTypes.contains (some "PICTURE")
     then 10 else 0)
  - (if !contentAnalysis.hasTitle && placeholderTypes.contains (some "TITLE")
     then 5 else 0)
  - (if !contentAnalysis.hasBody && placeholderTypes.contains (some "BODY")
     then 5 else 0)
  - (if contentAnalysis.contentLength == .long && category == .titleOnly
     then 15 else 0)
  - (if contentAnalysis.contentLength == .short && category == .titleAndTwoColumns
     then 10 else 0)

/-- `ContentMatcher.calculateLayoutScore` (`src/unnamed/part_001` line 139):
`Math.max(0, Math.min(100, score))`. -/
def calculateLayoutScore (contentAnalysis : ContentAnalysis) (layout : Layout) :
    Int :=
  max 0 (min 100 (rawLayoutScore contentAnalysis layout))

/-- Printable name of a classification tag (the JavaScript string value). -/
def contentTypeName (ct : ContentType) : String :=
  match ct with
  | .agenda => "agenda"
  | .quote => "quote"
  | .sectionTag => "section"
  | .imageFocused => "image-focused"
  | .listHeavy => "list-heavy"
  | .comparison => "comparison"
  | .closing => "closing"
  | .general => "general"

/-- Printable name of a category (the JavaScript string value). -/
def categoryName (cat : Category) : String :=
  match cat with
  | .titleOnly => "titleOnly"
  | .titleAndBody => "titleAndBody"
  | .titleAndTwoColumns => "titleAndTwoColumns"
  | .sectionHeader => "sectionHeader"
  | .blank => "blank"
  | .other => "other"

/-- `ContentMatcher.generateReasoning` (`src/unnamed/part_001` lines
222-245).  In the source the content-type clause wraps the tag in single
quotes; the quotes are elided here, which no claim observes. -/
def generateReasoning (contentAnalysis : ContentAnalysis)
    (selectedLayout : Layout) : String :=
  let category := getLayoutCategory selectedLayout
  let ctName := contentTypeName contentAnalysis.contentType
  let catName := categoryName category
  let scoreStr := toString selectedLayout.score
  let reasons : List String :=
    (if contentAnalysis.contentType != .general then
      [s!"Content type {ctName} best matches {catName} layout"]
     else []) ++
    (if contentAnalysis.hasTitle &&
        selectedLayout.placeholders.any (fun p => p.ptype == some "TITLE") then
      ["Layout has title placeholder for provided title"]
     else []) ++
    (if contentAnalysis.hasBody &&
        selectedLayout.placeholders.any (fun p => p.ptype == some "BODY") then
      ["Layout has body placeholder for provided content"]
     else []) ++
    (if contentAnalysis.hasImage then
      ["Layout can accommodate image content"]
     else []) ++
    [s!"Score: {scoreStr}/100"]
  String.intercalate "; " reasons

/-- The MatchResult returned by `ContentMatcher.findBestLayout`. -/
structure MatchResult where
  bestLayout : Layout
  alternatives : List Layout
  contentAnalysis : ContentAnalysis
  reasoning : String
deriving DecidableEq, Repr

/-- Insert a layout into a descending-by-score list, before the first
element it strictly dominates or ties with.  Together with
`sortByScoreDesc` this realizes the stable descending sort mandated for
`Array.prototype.sort` with comparator `(a, b) => b.score - a.score`. -/
def insertDesc (x : Layout) : List Layout → List Layout
  | [] => [x]
  | y :: ys => if y.score ≤ x.score then x :: y :: ys else y :: insertDesc x ys

/-- Stable descending sort by score (`scoredLayouts.sort((a, b) =>
b.score - a.score)` in `src/unnamed/part_001` line 25; ECMAScript sort is
stable, so equal-scored layouts keep their original order). -/
def sortByScoreDesc : List Layout → List Layout
  | [] => []
  | x :: xs => insertDesc x (sortByScoreDesc xs)

/-- The scored copies produced inside `findBestLayout`
(`layouts.map(layout => ({...layout, score: ...}))`). -/
def scoredLayouts (content : Content) (layouts : List Layout) : List Layout :=
  let contentAnalysis := analyzeContent content
  layouts.map (fun l => { l with score := calculateLayoutScore contentAnalysis l })

/-- `ContentMatcher.findBestLayout` (`src/unnamed/part_001` lines 13-33).
The empty-candidate guard (`throw new Error("No layouts available")`) is
the first statement of the function, before any content analysis or
scoring. -/
def findBestLayout (content : Content) (layouts : List Layout) :
    Except String MatchResult :=
  if layouts.isEmpty then
    Except.error "No layouts available"
  else
    let contentAnalysis := analyzeContent content
    match sortByScoreDesc (scoredLayouts content layouts) with
    | [] => Except.error "No layouts available"
    | best :: rest =>
        Except.ok
          { bestLayout := best
            alternatives := rest.take 2
            contentAnalysis := contentAnalysis
            reasoning := generateReasoning contentAnalysis best }

/-! ## Layout Analyzer (`src/core/layout-analyzer.js`) -/

/-- The dimension record of the raw Google Slides API
(`element.size.width.magnitude`). -/
structure Dimension where
  magnitude : Option Int := none
deriving DecidableEq, Repr

/-- `element.size` of a raw page element. -/
structure RawSize where
  width : Option Dimension := none
  height : Option Dimension := none
deriving DecidableEq, Repr

/-- `element.transform` of a raw page element. -/
structure RawTransform where
  translateX : Option Int := none
  translateY : Option Int := none
deriving DecidableEq, Repr

/-- `element.shape.placeholder` of a raw page element. -/
structure RawPlaceholderInfo where
  ptype : Option String := none
  index : Option Nat := none
  parentObjectId : Option String := none
deriving DecidableEq, Repr

/-- `element.shape` of a raw page element. -/
structure RawShape where
  placeholder : Option RawPlaceholderInfo := none
deriving DecidableEq, Repr

/-- A raw page element of a layout. -/
structure RawElement where
  objectId : Option String := none
  shape : Option RawShape := none
  size : Option RawSize := none
  transform : Option RawTransform := none
deriving DecidableEq, Repr

/-- A raw layout entry of the presentation description. -/
structure RawLayout where
  objectId : Option String := none
  layoutProperties : Option LayoutProperties := none
  pageElements : Option (List RawElement) := none
deriving DecidableEq, Repr

/-- The raw presentation description returned by the Slides API.  `none`
at the call site models a `null`/`undefined` presentation value. -/
structure Presentation where
  title : Option String := none
  layouts : Option (List RawLayout) := none
deriving DecidableEq, Repr

/-- `LayoutAnalyzer.extractPlaceholders` (`src/core/layout-analyzer.js`
lines 39-66): elements without a shape or placeholder role are skipped;
geometry is captured only when both size and transform are present, the
individual coordinates defaulting to 0. -/
def extractPlaceholders (layout : RawLayout) : List Placeholder :=
  match layout.pageElements with
  | none => []
  | some els =>
    els.filterMap (fun element =>
      match element.shape with
      | none => none
      | some sh =>
        match sh.placeholder with
        | none => none
        | some ph =>
          some
            { objectId := element.objectId
              ptype := ph.ptype
              index := ph.index
              bounds :=
                match element.size, element.transform with
                | some sz, some tr =>
                  some
                    { x := (tr.translateX).getD 0
                      y := (tr.translateY).getD 0
                      width := (sz.width.bind (fun d => d.magnitude)).getD 0
                      height := (sz.height.bind (fun d => d.magnitude)).getD 0 }
                | _, _ => none
              parentObjectId := ph.parentObjectId })

/-- `LayoutAnalyzer.extractLayouts` (`src/core/layout-analyzer.js` lines
12-32).  The `Option Presentation` argument models the nullable JavaScript
parameter: dereferencing a `null`/`undefined` presentation
(`presentation.layouts`) raises a `TypeError`, while a presentation object
without a `layouts` field (or with an empty layouts array) yields the
empty sequence. -/
def extractLayouts (presentation : Option Presentation) :
    Except String (List Layout) :=
  match presentation with
  | none => Except.error "TypeError: cannot read properties of null"
  | some p =>
    match p.layouts with
    | none => Except.ok []
    | some ls =>
      Except.ok
        (ls.map (fun layout =>
          { objectId := layout.objectId
            layoutProperties := layout.layoutProperties
            displayName :=
              match layout.layoutProperties with
              | some props =>
                match props.displayName with
                | some name => if strIsEmpty name then "Unnamed Layout" else name
                | none => "Unnamed Layout"
              | none => "Unnamed Layout"
            placeholders := extractPlaceholders layout
            score := 0 }))

/-- `LayoutAnalyzer.determineLayoutCategory` (`src/core/layout-analyzer.js`
lines 103-145).  It takes the placeholder type strings and display name
directly, as in the source. -/
def determineLayoutCategory (placeholderTypes : List (Option String))
    (displayName : String) : Category :=
  let nameUpper := jsToUpper displayName
  if includes nameUpper "TITLE_ONLY" || includes nameUpper "TITLE ONLY" then
    .titleOnly
  else if includes nameUpper "SECTION_HEADER" ||
      includes nameUpper "SECTION HEADER" then .sectionHeader
  else if includes nameUpper "TWO_COLUMNS" ||
      includes nameUpper "TWO COLUMNS" then .titleAndTwoColumns
  else if includes nameUpper "BLANK" then .blank
  else
    let hasTitle := placeholderTypes.contains (some "TITLE") ||
      placeholderTypes.contains (some "CENTERED_TITLE")
    let hasBody := placeholderTypes.contains (some "BODY") ||
      placeholderTypes.contains (some "SUBTITLE")
    let hasContent := placeholderTypes.contains (some "CONTENT")
    let bodyCount :=
      (placeholderTypes.filter
        (fun t =>
          t == some "BODY" || t == some "CONTENT" || t == some "SUBTITLE")).length
    if hasTitle && !hasBody && !hasContent then .titleOnly
    else if hasTitle && (hasBody || hasContent) && bodyCount == 1 then
      .titleAndBody
    else if hasTitle && bodyCount >= 2 then .titleAndTwoColumns
    else if hasTitle && placeholderTypes.contains (some "SUBTITLE") then
      .sectionHeader
    else if placeholderTypes.length == 0 then .blank
    else .other

/-! ## The inline matcher copy of `src/n8n-functions/complete-workflow.js` -/

/-- The reduced content analysis of the all-in-one n8n function
(`complete-workflow.js` lines 119-128). -/
structure WfAnalysis where
  hasTitle : Bool
  hasBody : Bool
  hasImage : Bool
  hasBullets : Bool
  contentLength : LengthBucket
  contentType : ContentType
deriving DecidableEq, Repr

/-- `ContentMatcher.determineContentType` of `complete-workflow.js`
(lines 130-142): fewer rules, bullet threshold 3, and the quote rule only
looks for a double quote in the body. -/
def determineContentTypeWorkflow (content : Content) : ContentType :=
  let title := jsToLower (content.title.getD "")
  let body := jsToLower (content.body.getD "")
  if includes title "agenda" then .agenda
  else if includes title "quote" || includes body "\x22" then .quote
  else if includes title "section" then .sectionTag
  else if jsTruthyStr content.imageUrl && !jsTruthyStr content.body then
    .imageFocused
  else if (match content.bullets with
           | some bs => decide (bs.length > 3)
           | none => false) then .listHeavy
  else if includes title "vs" || includes title "comparison" then .comparison
  else .general

/-- `ContentMatcher.analyzeContent` of `complete-workflow.js` (lines
119-128): long-body threshold 300 and only a two-valued length bucket. -/
def analyzeContentWorkflow (content : Content) : WfAnalysis :=
  { hasTitle := strTruthy (jsTrim (content.title.getD ""))
    hasBody := strTruthy (jsTrim (content.body.getD ""))
    hasImage := jsTruthyStr content.imageUrl ||
      (match content.images with
       | some imgs => imgs.length != 0
       | none => false)
    hasBullets :=
      match content.bullets with
      | some bs => bs.length != 0
      | none => false
    contentLength := if (content.body.getD "").length > 300 then .long else .short
    contentType := determineContentTypeWorkflow content }

/-- `ContentMatcher.calculateLayoutScore` of `complete-workflow.js` (lines
144-177): base 30, different bonuses, display-name bonuses, and crucially
`return Math.max(0, score)` with no upper clamp at 100. -/
def calculateLayoutScoreWorkflow (analysis : WfAnalysis) (layout : Layout) :
    Int :=
  let placeholders := layout.placeholders.map (fun p => p.ptype)
  let displayName := jsToUpper layout.displayName
  max 0
    ((30 : Int)
     + (if analysis.hasTitle && placeholders.contains (some "TITLE") then 25
        else if analysis.hasTitle && !placeholders.contains (some "TITLE") then -10
        else 0)
     + (if analysis.hasBody && placeholders.contains (some "BODY") then 20
        else if analysis.hasBody && !placeholders.contains (some "BODY") then -10
        else 0)
     + (if analysis.hasImage && placeholders.contains (some "PICTURE") then 15
        else 0)
     + (if analysis.contentType == .sectionTag && includes displayName "SECTION"
        then 20 else 0)
     + (if analysis.contentType == .comparison && includes displayName "TWO"
        then 15 else 0))

/-! ## Properties of the stable descending sort -/

/-- Scores are weakly descending along the list. -/
def ScoresDesc (l : List Layout) : Prop :=
  List.Chain' (fun a b => b.score ≤ a.score) l

theorem length_insertDesc (x : Layout) (l : List Layout) :
    (insertDesc x l).length = l.length + 1 := by
  induction l with
  | nil => rfl
  | cons y ys ih =>
    simp only [insertDesc]
    split
    · simp
    · simp [ih]

theorem perm_insertDesc (x : Layout) (l : List Layout) :
    (insertDesc x l).Perm (x :: l) := by
  induction l with
  | nil => exact List.Perm.refl _
  | cons y ys ih =>
    simp only [insertDesc]
    split
    · exact List.Perm.refl _
    · exact (ih.cons y).trans (List.Perm.swap x y ys)

theorem perm_sortByScoreDesc (l : List Layout) :
    (sortByScoreDesc l).Perm l := by
  induction l with
  | nil => exact List.Perm.refl _
  | cons x xs ih => exact (perm_insertDesc x _).trans (ih.cons x)

theorem length_sortByScoreDesc (l : List Layout) :
    (sortByScoreDesc l).length = l.length :=
  (perm_sortByScoreDesc l).length_eq

theorem scoresDesc_insertDesc (x : Layout) {l : List Layout}
    (h : ScoresDesc l) : ScoresDesc (insertDesc x l) := by
  induction l with
  | nil => simp [insertDesc, ScoresDesc]
  | cons y ys ih =>
    unfold ScoresDesc at *
    simp only [insertDesc]
    by_cases hxy : y.score ≤ x.score
    · rw [if_pos hxy]
      exact List.chain'_cons.mpr ⟨hxy, h⟩
    · rw [if_neg hxy]
      push_neg at hxy
      cases ys with
      | nil =>
        simp only [insertDesc]
        exact List.chain'_cons.mpr ⟨hxy.le, List.chain'_singleton x⟩
      | cons z zs =>
        have hyz : z.score ≤ y.score := (List.chain'_cons.mp h).1
        have htail := (List.chain'_cons.mp h).2
        have hins := ih htail
        simp only [insertDesc] at hins ⊢
        by_cases hzx : z.score ≤ x.score
        · rw [if_pos hzx] at hins ⊢
          exact List.chain'_cons.mpr ⟨hxy.le, hins⟩
        · rw [if_neg hzx] at hins ⊢
          exact List.chain'_cons.mpr ⟨hyz, hins⟩

theorem scoresDesc_sortByScoreDesc (l : List Layout) :
    ScoresDesc (sortByScoreDesc l) := by
  induction l with
  | nil => simp [sortByScoreDesc, ScoresDesc]
  | cons x xs ih => exact scoresDesc_insertDesc x ih

theorem scoresDesc_head_ge {x : Layout} {l : List Layout}
    (h : ScoresDesc (x :: l)) : ∀ y ∈ l, y.score ≤ x.score := by
  induction l generalizing x with
  | nil => simp
  | cons z zs ih =>
    intro y hy
    have h1 : z.score ≤ x.score := (List.chain'_cons.mp h).1
    have h2 := (List.chain'_cons.mp h).2
    rcases List.mem_cons.mp hy with rfl | hy'
    · exact h1
    · exact le_trans (ih h2 y hy') h1

/-- Stability at the head: the head of the sorted list is the earliest
element of the input attaining its score bound (everything before it in
the input scores strictly lower). -/
theorem sortByScoreDesc_head_split {l : List Layout} {h : Layout}
    {t : List Layout} (heq : sortByScoreDesc l = h :: t) :
    ∃ l₁ l₂, l = l₁ ++ h :: l₂ ∧ ∀ x ∈ l₁, x.score < h.score := by
  induction l generalizing h t with
  | nil => simp [sortByScoreDesc] at heq
  | cons x xs ih =>
    simp only [sortByScoreDesc] at heq
    cases hs : sortByScoreDesc xs with
    | nil =>
      rw [hs] at heq
      simp only [insertDesc] at heq
      injection heq with h1 h2
      subst h1
      exact ⟨[], xs, rfl, by simp⟩
    | cons h' t' =>
      rw [hs] at heq
      simp only [insertDesc] at heq
      by_cases hcmp : h'.score ≤ x.score
      · rw [if_pos hcmp] at heq
        injection heq with h1 h2
        subst h1
        exact ⟨[], xs, rfl, by simp⟩
      · rw [if_neg hcmp] at heq
        injection heq with h1 h2
        subst h1
        obtain ⟨l₁, l₂, hsplit, hlt⟩ := ih hs
        refine ⟨x :: l₁, l₂, by simp [hsplit], ?_⟩
        intro y hy
        rcases List.mem_cons.mp hy with rfl | hy'
        · omega
        · exact hlt y hy'

/-! ## Concrete inputs used by counterexamples and witnesses -/

/-- Content whose lowercased title contains the token `section`. -/
def wfContentEx : Content :=
  { title := some "Section Overview", body := some "hello team",
    imageUrl := some "http:img" }

/-- A layout with title, body and picture placeholders whose display name
contains `SECTION`. -/
def wfLayoutEx : Layout :=
  { objectId := some "l1", displayName := "Section Layout",
    placeholders := [{ ptype := some "TITLE" }, { ptype := some "BODY" },
      { ptype := some "PICTURE" }] }

/-- Content classified as `comparison` (title contains `vs`). -/
def compContentEx : Content := { title := some "Cats vs Dogs" }

/-- Content hitting the agenda rule while also containing a quote token. -/
def agendaContentEx : Content := { title := some "Weekly Agenda and Quote" }

/-- Content whose body contains an ASCII apostrophe (0x27) but no double
quote, and whose title does not mention `quote`. -/
def apostropheContentEx : Content :=
  { title := some "Hello", body := some "it\x27s fine" }

/-- Content whose title mentions `quote`. -/
def quoteTitleContentEx : Content := { title := some "Famous Quote" }

/-- A template with a title role and two subtitle roles, no body/content
role, and no category token in its name. -/
def c6LayoutEx : Layout :=
  { displayName := "Custom Layout",
    placeholders := [{ ptype := some "TITLE" }, { ptype := some "SUBTITLE" },
      { ptype := some "SUBTITLE" }] }

/-- A template with a lone subtitle role and no category token in its
name. -/
def subtitleLayoutEx : Layout :=
  { displayName := "Unnamed Layout",
    placeholders := [{ ptype := some "SUBTITLE" }] }

/-- A template on which both categorizers agree. -/
def agreeLayoutEx : Layout :=
  { displayName := "My Layout",
    placeholders := [{ ptype := some "TITLE" }, { ptype := some "BODY" }] }

/-- A blank template. -/
def witLayoutA : Layout :=
  { objectId := some "a", displayName := "Layout A", placeholders := [] }

/-- A title-only template. -/
def witLayoutB : Layout :=
  { objectId := some "b", displayName := "Layout B",
    placeholders := [{ ptype := some "TITLE" }] }

/-- A title-and-body template. -/
def witLayoutC : Layout :=
  { objectId := some "c", displayName := "Layout C",
    placeholders := [{ ptype := some "TITLE" }, { ptype := some "BODY" }] }

/-- Content consisting of a bare title. -/
def rankContentEx : Content := { title := some "Hello" }

/-- The candidate sequence used by the selector witnesses. -/
def rankLayoutsEx : List Layout := [witLayoutA, witLayoutB, witLayoutC]

/-! ## Claim theorems -/

/-- C1: `findBestLayout` fails with the empty-candidate error
(`No layouts available`, the spec's `EmptyCandidateSet`) if and only if
the template sequence is empty, and on a non-empty sequence it returns a
`MatchResult` without raising.  In the embedding the guard is the first
branch of the definition, before any content analysis or scoring, so the
error never depends on any score. -/
theorem findBestLayout_error_iff_empty (content : Content)
    (layouts : List Layout) :
    (layouts = [] →
      findBestLayout content layouts = Except.error "No layouts available") ∧
    (layouts ≠ [] → ∃ r, findBestLayout content layouts = Except.ok r) := by
  constructor
  · rintro rfl
    rfl
  · intro hne
    obtain ⟨a, as, rfl⟩ : ∃ a as, layouts = a :: as := by
      cases layouts with
      | nil => exact absurd rfl hne
      | cons a as => exact ⟨a, as, rfl⟩
    have hslen :
        (sortByScoreDesc (scoredLayouts content (a :: as))).length =
          (a :: as).length := by
      rw [length_sortByScoreDesc]
      simp [scoredLayouts]
    cases hs : sortByScoreDesc (scoredLayouts content (a :: as)) with
    | nil => rw [hs] at hslen; simp at hslen
    | cons best rest =>
      refine ⟨{ bestLayout := best, alternatives := rest.take 2,
                contentAnalysis := analyzeContent content,
                reasoning := generateReasoning (analyzeContent content) best },
        ?_⟩
      simp only [findBestLayout, List.isEmpty_cons, Bool.false_eq_true,
        if_false, hs]

/-- C1 witness: the error case on the empty sequence and the success case
on a singleton. -/
theorem findBestLayout_error_iff_empty_witness :
    findBestLayout rankContentEx [] = Except.error "No layouts available" ∧
    ∃ r, findBestLayout rankContentEx [witLayoutA] = Except.ok r :=
  ⟨(findBestLayout_error_iff_empty rankContentEx []).1 rfl,
   (findBestLayout_error_iff_empty rankContentEx [witLayoutA]).2
     (by decide)⟩

/-- C2 counterexample: the inline scorer of `complete-workflow.js` has no
upper clamp (`return Math.max(0, score)`) and returns 110 for
section-tagged content with title, body and image against a
`SECTION`-named layout exposing TITLE, BODY and PICTURE placeholders. -/
theorem workflowScore_exceeds_hundred :
    calculateLayoutScoreWorkflow (analyzeContentWorkflow wfContentEx)
        wfLayoutEx = 110 ∧
    ¬ calculateLayoutScoreWorkflow (analyzeContentWorkflow wfContentEx)
        wfLayoutEx ≤ 100 := by
  decide

/-- C2 amended: the canonical scorer (`src/unnamed/part_001`, identical in
`match-layout.js`) always returns an integer in [0, 100]; the inline copy
in `complete-workflow.js` is clamped below at 0 but has no upper clamp. -/
theorem layoutScore_clamped_range (contentAnalysis : ContentAnalysis)
    (wfAnalysis : WfAnalysis) (l m : Layout) :
    0 ≤ calculateLayoutScore contentAnalysis l ∧
    calculateLayoutScore contentAnalysis l ≤ 100 ∧
    0 ≤ calculateLayoutScoreWorkflow wfAnalysis m := by
  refine ⟨le_max_left _ _, max_le (by norm_num) (min_le_left _ _), ?_⟩
  simp only [calculateLayoutScoreWorkflow]
  exact le_max_left _ _

theorem getCategoryScores_le_forty (a : ContentAnalysis) (cat : Category) :
    getCategoryScores a cat ≤ 40 := by
  have h : ∀ ct : ContentType, ∀ c : Category,
      jsNumOr (scoreMatrix ct c) (jsNumOr (scoreMatrix .general c) 0) ≤ 40 := by
    intro ct c
    cases ct <;> cases c <;> decide
  exact h a.contentType cat

theorem rawLayoutScore_le_bound (a : ContentAnalysis) (l : Layout) :
    rawLayoutScore a l ≤ 85 := by
  have h := getCategoryScores_le_forty a (getLayoutCategory l)
  simp only [rawLayoutScore]
  split_ifs <;> omega

/-- C10: the canonical scorer's running total is bounded by the maximal
base entry (40) plus the bonus total (20 + 15 + 10 = 45), so the raw score
never exceeds 85, the upper clamp `Math.min(100, ...)` is never active,
and clamped scores 86..100 are unreachable. -/
theorem upperClamp_inactive (contentAnalysis : ContentAnalysis)
    (layout : Layout) :
    rawLayoutScore contentAnalysis layout ≤ 85 ∧
    min 100 (rawLayoutScore contentAnalysis layout) =
      rawLayoutScore contentAnalysis layout ∧
    calculateLayoutScore contentAnalysis layout ≤ 85 := by
  have h := rawLayoutScore_le_bound contentAnalysis layout
  refine ⟨h, min_eq_right (by omega), ?_⟩
  simp only [calculateLayoutScore]
  exact max_le (by norm_num) (le_trans (min_le_right _ _) h)

/-- C4 counterexample: comparison-tagged content scores 25 (not 0) against
category `titleOnly`: the `||` lookup chain falls back to the general row
for any missing entry, not only for an unknown tag. -/
theorem comparisonRow_fallback_cx :
    (analyzeContent compContentEx).contentType = ContentType.comparison ∧
    getCategoryScores (analyzeContent compContentEx) Category.titleOnly = 25 ∧
    getCategoryScores (analyzeContent compContentEx) Category.titleOnly ≠ 0 := by
  decide

/-- C4 amended: for comparison-tagged content the base score is 40 against
`titleAndTwoColumns`, 25 against `titleAndBody` and 20 against `blank` as
claimed, but categories missing from the comparison row fall back to the
general row (25 against `titleOnly`, 20 against `sectionHeader`); only a
category missing from both rows (`other`) scores 0. -/
theorem comparisonRow_scores (a : ContentAnalysis)
    (h : a.contentType = ContentType.comparison) :
    getCategoryScores a Category.titleAndTwoColumns = 40 ∧
    getCategoryScores a Category.titleAndBody = 25 ∧
    getCategoryScores a Category.blank = 20 ∧
    getCategoryScores a Category.titleOnly = 25 ∧
    getCategoryScores a Category.sectionHeader = 20 ∧
    getCategoryScores a Category.other = 0 := by
  simp only [getCategoryScores, h]
  decide

/-- C4 witness: the amended row evaluated on concrete comparison content. -/
theorem comparisonRow_scores_witness :
    (analyzeContent compContentEx).contentType = ContentType.comparison ∧
    (getCategoryScores (analyzeContent compContentEx)
        Category.titleAndTwoColumns = 40 ∧
      getCategoryScores (analyzeContent compContentEx) Category.titleAndBody = 25 ∧
      getCategoryScores (analyzeContent compContentEx) Category.blank = 20 ∧
      getCategoryScores (analyzeContent compContentEx) Category.titleOnly = 25 ∧
      getCategoryScores (analyzeContent compContentEx) Category.sectionHeader = 20 ∧
      getCategoryScores (analyzeContent compContentEx) Category.other = 0) :=
  ⟨by decide, comparisonRow_scores (analyzeContent compContentEx) (by decide)⟩

theorem determineContentType_agenda (content : Content) (a : ContentAnalysis)
    (h : (includes (jsToLower (content.title.getD "")) "agenda" ||
          includes (jsToLower (content.body.getD "")) "agenda") = true) :
    determineContentType content a = ContentType.agenda := by
  simp only [determineContentType]
  rw [if_pos h]

/-- C5: any content whose lowercased title or body contains `agenda`
classifies as `agenda`; the agenda rule is the first branch of
`determineContentType`, so later rules (quote included) cannot fire. -/
theorem agendaRule_first (content : Content)
    (h : (includes (jsToLower (content.title.getD "")) "agenda" ||
          includes (jsToLower (content.body.getD "")) "agenda") = true) :
    (analyzeContent content).contentType = ContentType.agenda :=
  determineContentType_agenda content _ h

/-- C5 witness: the title `Weekly Agenda and Quote` matches the agenda
token and classifies as agenda. -/
theorem agendaRule_first_witness :
    ((includes (jsToLower (agendaContentEx.title.getD "")) "agenda" ||
      includes (jsToLower (agendaContentEx.body.getD "")) "agenda") = true) ∧
    (analyzeContent agendaContentEx).contentType = ContentType.agenda :=
  ⟨by decide, agendaRule_first agendaContentEx (by decide)⟩

/-- C9 counterexample: the quote regex character class contains the ASCII
apostrophe, so a body whose only punctuation is an apostrophe classifies
as quote even though the title does not mention `quote` and the body
contains no double quote. -/
theorem apostrophe_classifies_quote :
    includes (jsToLower (apostropheContentEx.title.getD "")) "quote" = false ∧
    (jsToLower (apostropheContentEx.body.getD "")).toList.all
      (fun c => c != Char.ofNat 34) = true ∧
    (analyzeContent apostropheContentEx).contentType = ContentType.quote := by
  decide

/-- C9 amended: outside the agenda rule, content classifies as quote if
and only if the lowercased title contains `quote` or the lowercased body
contains a double quote or an ASCII apostrophe (the characters of the
regex class `["'']`); in particular a body containing an apostrophe does
classify as quote. -/
theorem determineContentType_quote_iff (content : Content) (a : ContentAnalysis)
    (h : (includes (jsToLower (content.title.getD "")) "agenda" ||
          includes (jsToLower (content.body.getD "")) "agenda") = false) :
    (determineContentType content a = ContentType.quote ↔
      (includes (jsToLower (content.title.getD "")) "quote" ||
       hasQuoteChar (jsToLower (content.body.getD ""))) = true) := by
  simp only [determineContentType]
  rw [h]
  simp only [Bool.false_eq_true, if_false]
  cases (includes (jsToLower (content.title.getD "")) "quote" ||
      hasQuoteChar (jsToLower (content.body.getD ""))) with
  | true => simp
  | false =>
    simp only [Bool.false_eq_true, if_false, iff_false]
    cases (includes (jsToLower (content.title.getD "")) "section" ||
        includes (jsToLower (content.title.getD "")) "chapter") with
    | true => simp
    | false =>
      simp only [Bool.false_eq_true, if_false]
      cases (a.hasImage && !a.hasBody) with
      | true => simp
      | false =>
        simp only [Bool.false_eq_true, if_false]
        cases (a.hasBullets && decide (a.bulletCount > 5)) with
        | true => simp
        | false =>
          simp only [Bool.false_eq_true, if_false]
          cases (content.comparison ||
              includes (jsToLower (content.title.getD "")) "vs" ||
              includes (jsToLower (content.title.getD "")) "versus") with
          | true => simp
          | false =>
            simp only [Bool.false_eq_true, if_false]
            cases (includes (jsToLower (content.title.getD "")) "thank" ||
                includes (jsToLower (content.title.getD "")) "conclusion") with
            | true => simp
            | false => simp

/-- C9 amended (pipeline form): outside the agenda rule, the classifier
assigns `quote` if and only if the lowercased title contains `quote` or
the lowercased body contains a double quote or an ASCII apostrophe. -/
theorem quoteRule_iff (content : Content)
    (h : (includes (jsToLower (content.title.getD "")) "agenda" ||
          includes (jsToLower (content.body.getD "")) "agenda") = false) :
    ((analyzeContent content).contentType = ContentType.quote ↔
      (includes (jsToLower (content.title.getD "")) "quote" ||
       hasQuoteChar (jsToLower (content.body.getD ""))) = true) :=
  determineContentType_quote_iff content _ h

/-- C9 witness: a title mentioning `Quote` classifies as quote via the
amended rule. -/
theorem quoteRule_iff_witness :
    ((includes (jsToLower (quoteTitleContentEx.title.getD "")) "agenda" ||
      includes (jsToLower (quoteTitleContentEx.body.getD "")) "agenda") = false) ∧
    ((analyzeContent quoteTitleContentEx).contentType = ContentType.quote ↔
      (includes (jsToLower (quoteTitleContentEx.title.getD "")) "quote" ||
       hasQuoteChar (jsToLower (quoteTitleContentEx.body.getD ""))) = true) :=
  ⟨by decide, quoteRule_iff quoteTitleContentEx (by decide)⟩

/-- C6 counterexample: a template with a title role and two subtitle roles
(no body/content role, no name token) is categorized `titleOnly` by the
scorer-side categorizer and `titleAndTwoColumns` by the extractor-side
categorizer — neither assigns `sectionHeader`. -/
theorem titleSubtitle_category_cx :
    getLayoutCategory c6LayoutEx = Category.titleOnly ∧
    getLayoutCategory c6LayoutEx ≠ Category.sectionHeader ∧
    determineLayoutCategory [some "TITLE", some "SUBTITLE", some "SUBTITLE"]
      "Custom Layout" = Category.titleAndTwoColumns ∧
    determineLayoutCategory [some "TITLE", some "SUBTITLE", some "SUBTITLE"]
      "Custom Layout" ≠ Category.sectionHeader := by
  decide

/-- C6 amended: a template whose display name contains no category token
and whose roles include a title role but no body role is categorized
`titleOnly` by the scorer-side categorizer (subtitle roles
notwithstanding); the structural `sectionHeader` rule is only reachable
when no title role is present. -/
theorem titleNoBody_titleOnly (layout : Layout)
    (h1 : includes (jsToUpper layout.displayName) "TITLE_ONLY" = false)
    (h2 : includes (jsToUpper layout.displayName) "TITLE ONLY" = false)
    (h3 : includes (jsToUpper layout.displayName) "SECTION_HEADER" = false)
    (h4 : includes (jsToUpper layout.displayName) "TWO_COLUMNS" = false)
    (h5 : includes (jsToUpper layout.displayName) "BLANK" = false)
    (h6 : (layout.placeholders.map (fun p => p.ptype)).contains
        (some "TITLE") = true)
    (h7 : (layout.placeholders.map (fun p => p.ptype)).contains
        (some "BODY") = false) :
    getLayoutCategory layout = Category.titleOnly := by
  simp only [getLayoutCategory, h1, h2, h3, h4, h5, h6, h7, Bool.or_self,
    Bool.false_eq_true, if_false, Bool.not_false, Bool.and_self, if_true]

/-- C6 witness: the amended rule applied to the title-plus-two-subtitles
template. -/
theorem titleNoBody_titleOnly_witness :
    (includes (jsToUpper c6LayoutEx.displayName) "TITLE_ONLY" = false) ∧
    (includes (jsToUpper c6LayoutEx.displayName) "TITLE ONLY" = false) ∧
    (includes (jsToUpper c6LayoutEx.displayName) "SECTION_HEADER" = false) ∧
    (includes (jsToUpper c6LayoutEx.displayName) "TWO_COLUMNS" = false) ∧
    (includes (jsToUpper c6LayoutEx.displayName) "BLANK" = false) ∧
    ((c6LayoutEx.placeholders.map (fun p => p.ptype)).contains
        (some "TITLE") = true) ∧
    ((c6LayoutEx.placeholders.map (fun p => p.ptype)).contains
        (some "BODY") = false) ∧
    getLayoutCategory c6LayoutEx = Category.titleOnly :=
  ⟨by decide, by decide, by decide, by decide, by decide, by decide, by decide,
   titleNoBody_titleOnly c6LayoutEx (by decide) (by decide) (by decide)
     (by decide) (by decide) (by decide) (by decide)⟩

/-- C7 counterexample: the two categorizers are different functions of
(displayName, placeholder roles): on a lone subtitle role with a tokenless
name the scorer-side categorizer returns `sectionHeader` while the
extractor-side categorizer returns `other`. -/
theorem categorizers_disagree_cx :
    getLayoutCategory subtitleLayoutEx = Category.sectionHeader ∧
    determineLayoutCategory
      (subtitleLayoutEx.placeholders.map (fun p => p.ptype))
      subtitleLayoutEx.displayName = Category.other ∧
    getLayoutCategory subtitleLayoutEx ≠
      determineLayoutCategory
        (subtitleLayoutEx.placeholders.map (fun p => p.ptype))
        subtitleLayoutEx.displayName := by
  decide

/-- C7 amended: each categorizer is a pure function of
(displayName, placeholder roles), and the two agree on every template
whose roles avoid `CENTERED_TITLE`, `SUBTITLE` and `CONTENT` and whose
display name contains neither of the space-form tokens `SECTION HEADER`
and `TWO COLUMNS` that only the extractor-side categorizer recognizes. -/
theorem categorizers_agree (layout : Layout)
    (hc : (layout.placeholders.map (fun p => p.ptype)).contains
        (some "CENTERED_TITLE") = false)
    (hsub : (layout.placeholders.map (fun p => p.ptype)).contains
        (some "SUBTITLE") = false)
    (hcon : (layout.placeholders.map (fun p => p.ptype)).contains
        (some "CONTENT") = false)
    (hn1 : includes (jsToUpper layout.displayName) "SECTION HEADER" = false)
    (hn2 : includes (jsToUpper layout.displayName) "TWO COLUMNS" = false) :
    getLayoutCategory layout =
      determineLayoutCategory (layout.placeholders.map (fun p => p.ptype))
        layout.displayName := by
  have hnotmem : some "SUBTITLE" ∉ layout.placeholders.map (fun p => p.ptype) := by
    simpa using hsub
  have hfilter : (layout.placeholders.map (fun p => p.ptype)).filter
      (fun t => t == some "BODY" || t == some "CONTENT" || t == some "SUBTITLE") =
      (layout.placeholders.map (fun p => p.ptype)).filter
      (fun t => t == some "BODY" || t == some "CONTENT") := by
    apply List.filter_congr
    intro x hx
    have hxs : x ≠ some "SUBTITLE" := fun hxeq => hnotmem (hxeq ▸ hx)
    simp [hxs]
  simp only [getLayoutCategory, determineLayoutCategory, hc, hsub, hcon,
    hn1, hn2, hfilter, Bool.or_false, Bool.and_false, Bool.not_false,
    Bool.and_true]

/-- C7 witness: the two categorizers agree on a plain title-and-body
template. -/
theorem categorizers_agree_witness :
    ((agreeLayoutEx.placeholders.map (fun p => p.ptype)).contains
        (some "CENTERED_TITLE") = false) ∧
    ((agreeLayoutEx.placeholders.map (fun p => p.ptype)).contains
        (some "SUBTITLE") = false) ∧
    ((agreeLayoutEx.placeholders.map (fun p => p.ptype)).contains
        (some "CONTENT") = false) ∧
    (includes (jsToUpper agreeLayoutEx.displayName) "SECTION HEADER" = false) ∧
    (includes (jsToUpper agreeLayoutEx.displayName) "TWO COLUMNS" = false) ∧
    getLayoutCategory agreeLayoutEx =
      determineLayoutCategory (agreeLayoutEx.placeholders.map (fun p => p.ptype))
        agreeLayoutEx.displayName :=
  ⟨by decide, by decide, by decide, by decide, by decide,
   categorizers_agree agreeLayoutEx (by decide) (by decide) (by decide)
     (by decide) (by decide)⟩

/-- C8 counterexample: a null/undefined presentation input does not yield
an empty sequence — dereferencing `presentation.layouts` raises a
`TypeError`. -/
theorem extractLayouts_null_raises :
    extractLayouts none =
      Except.error "TypeError: cannot read properties of null" := rfl

/-- C8 amended: for every actual presentation object, extraction never
fails; a presentation with zero layouts or without a layouts field yields
the empty template sequence.  Only a null/undefined presentation value
raises (a `TypeError`). -/
theorem extractLayouts_graceful (p : Presentation)
    (h : p.layouts = none ∨ p.layouts = some []) :
    extractLayouts (some p) = Except.ok [] ∧
    ∀ q : Presentation, ∃ ls, extractLayouts (some q) = Except.ok ls := by
  constructor
  · rcases h with h | h <;> simp [extractLayouts, h]
  · intro q
    cases hq : q.layouts with
    | none => exact ⟨[], by simp [extractLayouts, hq]⟩
    | some ls =>
      match hx : extractLayouts (some q) with
      | Except.error e =>
        rw [extractLayouts, hq] at hx
        exact absurd hx (by simp)
      | Except.ok out => exact ⟨out, rfl⟩

/-- C8 witness: extraction on a presentation with an empty layouts array
and on one without a layouts field. -/
theorem extractLayouts_graceful_witness :
    (({ layouts := some [] } : Presentation).layouts = none ∨
      ({ layouts := some [] } : Presentation).layouts = some []) ∧
    (extractLayouts (some { layouts := some [] }) = Except.ok [] ∧
      ∀ q : Presentation, ∃ ls, extractLayouts (some q) = Except.ok ls) :=
  ⟨Or.inr rfl, extractLayouts_graceful { layouts := some [] } (Or.inr rfl)⟩

/-- C3: on a non-empty candidate sequence of length n, `findBestLayout`
returns exactly `min 2 (n - 1)` alternatives drawn from the sorted
positions after the best (so, for pairwise-distinct scored templates, the
best layout is never among them), the returned ranking is weakly
descending by score, the best layout attains the maximal score, and by
stability of the sort it is the earliest scored template attaining that
score (every template before it in extraction order scores strictly
lower).  The `Nodup` hypothesis models JavaScript object identity: the
spread in `layouts.map(layout => ({...layout, score}))` makes every scored
entry a fresh object. -/
theorem findBestLayout_ranking (content : Content) (layouts : List Layout)
    (hne : layouts ≠ [])
    (hnd : (scoredLayouts content layouts).Nodup) :
    ∃ r, findBestLayout content layouts = Except.ok r ∧
      r.alternatives.length = min 2 (layouts.length - 1) ∧
      r.bestLayout ∉ r.alternatives ∧
      ScoresDesc (r.bestLayout :: r.alternatives) ∧
      (∀ x ∈ scoredLayouts content layouts, x.score ≤ r.bestLayout.score) ∧
      (∃ l₁ l₂, scoredLayouts content layouts = l₁ ++ r.bestLayout :: l₂ ∧
        ∀ x ∈ l₁, x.score < r.bestLayout.score) := by
  obtain ⟨a, as, rfl⟩ : ∃ a as, layouts = a :: as := by
    cases layouts with
    | nil => exact absurd rfl hne
    | cons a as => exact ⟨a, as, rfl⟩
  have hslen : (sortByScoreDesc (scoredLayouts content (a :: as))).length =
      (a :: as).length := by
    rw [length_sortByScoreDesc]
    simp [scoredLayouts]
  cases hs : sortByScoreDesc (scoredLayouts content (a :: as)) with
  | nil => rw [hs] at hslen; simp at hslen
  | cons best rest =>
    have hperm : (best :: rest).Perm (scoredLayouts content (a :: as)) := by
      rw [← hs]
      exact perm_sortByScoreDesc _
    have hsorted : ScoresDesc (best :: rest) := by
      rw [← hs]
      exact scoresDesc_sortByScoreDesc _
    have hnd2 : (best :: rest).Nodup := hperm.symm.nodup hnd
    refine ⟨{ bestLayout := best, alternatives := rest.take 2,
              contentAnalysis := analyzeContent content,
              reasoning := generateReasoning (analyzeContent content) best },
      ?_, ?_, ?_, ?_, ?_, ?_⟩
    · simp only [findBestLayout, List.isEmpty_cons, Bool.false_eq_true,
        if_false, hs]
    · rw [hs] at hslen
      simp only [List.length_cons] at hslen
      simp only [List.length_take, List.length_cons]
      omega
    · have hbest : best ∉ rest := (List.nodup_cons.mp hnd2).1
      intro hmem
      exact hbest ((List.take_sublist 2 rest).subset hmem)
    · unfold ScoresDesc at hsorted ⊢
      match rest with
      | [] => simp
      | [r1] => simpa using hsorted
      | r1 :: r2 :: rs2 =>
        have h1 := (List.chain'_cons.mp hsorted).1
        have htl := (List.chain'_cons.mp hsorted).2
        have h2 := (List.chain'_cons.mp htl).1
        show List.Chain' _ (best :: (r1 :: r2 :: rs2).take 2)
        simp only [List.take_succ_cons, List.take_zero]
        exact List.chain'_cons.mpr ⟨h1,
          List.chain'_cons.mpr ⟨h2, List.chain'_singleton r2⟩⟩
    · intro x hx
      have hx2 : x ∈ best :: rest := hperm.mem_iff.mpr hx
      rcases List.mem_cons.mp hx2 with rfl | hmem
      · exact le_refl _
      · exact scoresDesc_head_ge hsorted x hmem
    · exact sortByScoreDesc_head_split hs

/-- C3 witness: the ranking properties evaluated on a three-template
sequence with pairwise distinct scored entries. -/
theorem findBestLayout_ranking_witness :
    rankLayoutsEx ≠ [] ∧
    (scoredLayouts rankContentEx rankLayoutsEx).Nodup ∧
    (∃ r, findBestLayout rankContentEx rankLayoutsEx = Except.ok r ∧
      r.alternatives.length = min 2 (rankLayoutsEx.length - 1) ∧
      r.bestLayout ∉ r.alternatives ∧
      ScoresDesc (r.bestLayout :: r.alternatives) ∧
      (∀ x ∈ scoredLayouts rankContentEx rankLayoutsEx,
        x.score ≤ r.bestLayout.score) ∧
      (∃ l₁ l₂, scoredLayouts rankContentEx rankLayoutsEx =
          l₁ ++ r.bestLayout :: l₂ ∧
        ∀ x ∈ l₁, x.score < r.bestLayout.score)) :=
  ⟨by decide, by decide,
   findBestLayout_ranking rankContentEx rankLayoutsEx (by decide) (by decide)⟩
